import Mathlib

/-!
Verification of the clean-architecture bank (`src/banco.py`, `src/main.py`).

Shallow embedding conventions:
* Python's `float` balance is modelled as `ℚ` (exact arithmetic); the claims
  are about the comparison/update logic, not rounding.
* A `raise ValueError(msg)` is modelled as `Except.error msg`; the three
  messages raised by the source are named below.
* Python's in-place mutation of `self.saldo` becomes a functional update:
  a method returns `Except String Cuenta`.  Because the source checks its
  guard before the single assignment to `self.saldo`, the error branch
  leaves the object untouched, which the functional embedding renders as
  returning no account at all.
* The SQLite table `cuentas (id_cuenta TEXT PRIMARY KEY, saldo REAL)` is
  modelled as a list of rows with at most one row per key; `guardar`
  performs the `INSERT OR REPLACE` upsert, and `buscarFila` performs
  `SELECT * FROM cuentas WHERE id_cuenta = ?` followed by `fetchone`
  (first matching row).
-/

/-- Entity `Cuenta` of `src/banco.py`: an account id and a balance.
The constructor (`__init__`) stores both fields with no validation. -/
structure Cuenta where
  id_cuenta : String
  saldo : ℚ
deriving DecidableEq, Repr

/-- Message of the `ValueError` raised by `Cuenta.depositar` (the
spec's `InvalidAmount`). -/
def MontoInvalido : String := "El monto debe ser mayor a 0"

/-- Message of the `ValueError` raised by `Cuenta.retirar` (the
spec's `InsufficientFunds`). -/
def FondosInsuficientes : String := "Fondos insuficientes"

/-- Message of the `ValueError` raised by `obtener_por_id` (the
spec's `AccountNotFound`). -/
def CuentaNoEncontrada : String := "Cuenta no encontrada"

/-- `Cuenta.depositar`: `if monto <= 0: raise ValueError(...)` then
`self.saldo += monto`. -/
def Cuenta.depositar (c : Cuenta) (monto : ℚ) : Except String Cuenta :=
  if monto ≤ 0 then .error MontoInvalido
  else .ok { c with saldo := c.saldo + monto }

/-- `Cuenta.retirar`: `if monto > self.saldo: raise ValueError(...)` then
`self.saldo -= monto`. -/
def Cuenta.retirar (c : Cuenta) (monto : ℚ) : Except String Cuenta :=
  if c.saldo < monto then .error FondosInsuficientes
  else .ok { c with saldo := c.saldo - monto }

/-- The `cuentas` table: rows `(id_cuenta, saldo)`; `guardar` keeps at most
one row per primary key. -/
abbrev BaseDeDatos := List (String × ℚ)

/-- `SELECT * FROM cuentas WHERE id_cuenta = ?` + `fetchone`: the first row
whose key equals the requested id, if any. -/
def buscarFila (db : BaseDeDatos) (id_cuenta : String) : Option (String × ℚ) :=
  match db with
  | [] => none
  | fila :: resto =>
    if fila.1 = id_cuenta then some fila else buscarFila resto id_cuenta

/-- `RepositorioCuentaSQLite.obtener_por_id`: raise `ValueError("Cuenta no
encontrada")` when no row exists, otherwise rebuild
`Cuenta(id_cuenta=fila[0], saldo=fila[1])`. -/
def obtener_por_id (db : BaseDeDatos) (id_cuenta : String) :
    Except String Cuenta :=
  match buscarFila db id_cuenta with
  | none => .error CuentaNoEncontrada
  | some fila => .ok ⟨fila.1, fila.2⟩

/-- `RepositorioCuentaSQLite.guardar`: `INSERT OR REPLACE` keyed on the
primary key — any existing row for `cuenta.id_cuenta` is replaced by the row
`(cuenta.id_cuenta, cuenta.saldo)`. -/
def guardar (db : BaseDeDatos) (cuenta : Cuenta) : BaseDeDatos :=
  (cuenta.id_cuenta, cuenta.saldo) ::
    db.filter (fun fila => fila.1 ≠ cuenta.id_cuenta)

/-- `CasoDeUsoCuenta.depositar`: fetch, mutate, save; an exception at any
step propagates and leaves the database untouched. -/
def CasoDeUsoCuenta.depositar (db : BaseDeDatos) (id_cuenta : String)
    (monto : ℚ) : BaseDeDatos × Option String :=
  match obtener_por_id db id_cuenta with
  | .error e => (db, some e)
  | .ok cuenta =>
    match cuenta.depositar monto with
    | .error e => (db, some e)
    | .ok cuenta2 => (guardar db cuenta2, none)

/-- `CasoDeUsoCuenta.retirar`: fetch, mutate, save; an exception at any
step propagates and leaves the database untouched. -/
def CasoDeUsoCuenta.retirar (db : BaseDeDatos) (id_cuenta : String)
    (monto : ℚ) : BaseDeDatos × Option String :=
  match obtener_por_id db id_cuenta with
  | .error e => (db, some e)
  | .ok cuenta =>
    match cuenta.retirar monto with
    | .error e => (db, some e)
    | .ok cuenta2 => (guardar db cuenta2, none)

/-- Every row of the database carries a nonnegative balance. -/
def saldosNoNegativos (db : BaseDeDatos) : Prop :=
  ∀ fila ∈ db, (0 : ℚ) ≤ fila.2

/-- A row found by `buscarFila` is a row of the database whose key is the
requested id. -/
theorem buscarFila_mem {db : BaseDeDatos} {id_cuenta : String}
    {fila : String × ℚ} (h : buscarFila db id_cuenta = some fila) :
    fila ∈ db ∧ fila.1 = id_cuenta := by
  induction db with
  | nil => simp [buscarFila] at h
  | cons cabeza resto ih =>
    by_cases hc : cabeza.1 = id_cuenta
    · simp [buscarFila, hc] at h
      subst h
      exact ⟨List.mem_cons_self .., hc⟩
    · simp [buscarFila, hc] at h
      obtain ⟨hm, hk⟩ := ih h
      exact ⟨List.mem_cons_of_mem _ hm, hk⟩

/-- Claim C2: for every account with balance `b` and every deposit amount
`d > 0`, `Cuenta.depositar d` succeeds and the post-deposit balance equals
`b + d`. -/
theorem depositar_positivo_correcto (c : Cuenta) (d : ℚ) (hd : 0 < d) :
    c.depositar d = .ok ⟨c.id_cuenta, c.saldo + d⟩ := by
  simp [Cuenta.depositar, not_le.mpr hd]

/-- Witness for C2: depositing `50` into the bootstrap account
`("12345", 100)` yields balance `150`. -/
theorem depositar_positivo_correcto_witness :
    Cuenta.depositar ⟨"12345", 100⟩ 50 = .ok ⟨"12345", 150⟩ := by
  have h := depositar_positivo_correcto ⟨"12345", 100⟩ 50 (by norm_num)
  norm_num at h
  exact h

/-- Claim C3: for every account and every deposit amount `d ≤ 0`,
`Cuenta.depositar d` fails with the `InvalidAmount` error and produces no
updated account (the source checks the guard before the assignment to
`self.saldo`, so the balance is unchanged on failure). -/
theorem depositar_no_positivo_falla (c : Cuenta) (d : ℚ) (hd : d ≤ 0) :
    c.depositar d = .error MontoInvalido := by
  simp [Cuenta.depositar, hd]

/-- Witness for C3: a zero deposit on the bootstrap account fails with the
`InvalidAmount` message. -/
theorem depositar_no_positivo_falla_witness :
    Cuenta.depositar ⟨"12345", 100⟩ 0 = .error MontoInvalido :=
  depositar_no_positivo_falla ⟨"12345", 100⟩ 0 (by norm_num)

/-- Claim C4: for every account with balance `b` and every withdrawal amount
`w` with `0 < w ≤ b`, `Cuenta.retirar w` succeeds and the post-withdrawal
balance equals `b - w`. -/
theorem retirar_valido_correcto (c : Cuenta) (w : ℚ) (hw : 0 < w)
    (hb : w ≤ c.saldo) :
    c.retirar w = .ok ⟨c.id_cuenta, c.saldo - w⟩ := by
  simp [Cuenta.retirar, not_lt.mpr hb]

/-- Witness for C4: withdrawing `150` from balance `150` leaves `0`. -/
theorem retirar_valido_correcto_witness :
    Cuenta.retirar ⟨"12345", 150⟩ 150 = .ok ⟨"12345", 0⟩ := by
  have h := retirar_valido_correcto ⟨"12345", 150⟩ 150 (by norm_num)
    (by norm_num)
  norm_num at h
  exact h

/-- Claim C5: for every account with balance `b` and every withdrawal amount
`w > b`, `Cuenta.retirar w` fails with the `InsufficientFunds` error and
produces no updated account (guard checked before the assignment, so the
balance is unchanged on failure). -/
theorem retirar_excesivo_falla (c : Cuenta) (w : ℚ) (hw : c.saldo < w) :
    c.retirar w = .error FondosInsuficientes := by
  simp [Cuenta.retirar, hw]

/-- Witness for C5: withdrawing `200` from balance `150` fails with the
`InsufficientFunds` message. -/
theorem retirar_excesivo_falla_witness :
    Cuenta.retirar ⟨"12345", 150⟩ 200 = .error FondosInsuficientes :=
  retirar_excesivo_falla ⟨"12345", 150⟩ 200 (by norm_num)

/-- Claim C6: for every account with balance `b ≥ 0` and every withdrawal
amount `w ≤ 0`, `Cuenta.retirar w` succeeds (the source validates only
`w > b`, never `w > 0`) and sets the balance to `b - w`; a zero withdrawal
is a no-op and a negative withdrawal strictly increases the balance. -/
theorem retirar_no_positivo_pasa (c : Cuenta) (hb : 0 ≤ c.saldo) (w : ℚ)
    (hw : w ≤ 0) :
    c.retirar w = .ok ⟨c.id_cuenta, c.saldo - w⟩ ∧
    (w = 0 → c.saldo - w = c.saldo) ∧
    (w < 0 → c.saldo < c.saldo - w) := by
  refine ⟨?_, ?_, ?_⟩
  · simp [Cuenta.retirar, not_lt.mpr (hw.trans hb)]
  · intro h0; simp [h0]
  · intro hneg; linarith

/-- Witness for C6: withdrawing `-5` from balance `100` succeeds and leaves
balance `105`. -/
theorem retirar_no_positivo_pasa_witness :
    Cuenta.retirar ⟨"12345", 100⟩ (-5) = .ok ⟨"12345", 105⟩ := by
  have h := (retirar_no_positivo_pasa ⟨"12345", 100⟩ (by norm_num) (-5)
    (by norm_num)).1
  norm_num at h
  exact h

/-- Claim C7: both service operations perform fetch, then the entity
mutation, then save; `AccountNotFound` propagates from the fetch and
`InvalidAmount` / `InsufficientFunds` from the mutation, and on any failure
no save occurs, so the database (hence the persisted balance for the id)
is unchanged. -/
theorem caso_de_uso_lee_modifica_escribe (db : BaseDeDatos)
    (id_cuenta : String) (monto : ℚ) :
    (buscarFila db id_cuenta = none →
      CasoDeUsoCuenta.depositar db id_cuenta monto
        = (db, some CuentaNoEncontrada) ∧
      CasoDeUsoCuenta.retirar db id_cuenta monto
        = (db, some CuentaNoEncontrada)) ∧
    (∀ fila, buscarFila db id_cuenta = some fila →
      (monto ≤ 0 →
        CasoDeUsoCuenta.depositar db id_cuenta monto
          = (db, some MontoInvalido)) ∧
      (0 < monto →
        CasoDeUsoCuenta.depositar db id_cuenta monto
          = (guardar db ⟨fila.1, fila.2 + monto⟩, none)) ∧
      (fila.2 < monto →
        CasoDeUsoCuenta.retirar db id_cuenta monto
          = (db, some FondosInsuficientes)) ∧
      (monto ≤ fila.2 →
        CasoDeUsoCuenta.retirar db id_cuenta monto
          = (guardar db ⟨fila.1, fila.2 - monto⟩, none))) := by
  constructor
  · intro hnone
    constructor
    · simp [CasoDeUsoCuenta.depositar, obtener_por_id, hnone]
    · simp [CasoDeUsoCuenta.retirar, obtener_por_id, hnone]
  · intro fila hsome
    refine ⟨?_, ?_, ?_, ?_⟩
    · intro hm
      simp [CasoDeUsoCuenta.depositar, obtener_por_id, hsome,
        Cuenta.depositar, hm]
    · intro hm
      simp [CasoDeUsoCuenta.depositar, obtener_por_id, hsome,
        Cuenta.depositar, not_le.mpr hm]
    · intro hm
      simp [CasoDeUsoCuenta.retirar, obtener_por_id, hsome,
        Cuenta.retirar, hm]
    · intro hm
      simp [CasoDeUsoCuenta.retirar, obtener_por_id, hsome,
        Cuenta.retirar, not_lt.mpr hm]

/-- Witness for C7: on a database without the account, a service deposit
fails with `AccountNotFound` and leaves the database unchanged. -/
theorem caso_de_uso_lee_modifica_escribe_witness :
    CasoDeUsoCuenta.depositar [] "12345" 50 = ([], some CuentaNoEncontrada) :=
  ((caso_de_uso_lee_modifica_escribe [] "12345" 50).1 rfl).1

/-- Claim C8: for every id with no row in the store, `obtener_por_id` fails
with the `AccountNotFound` error and never returns a default account. -/
theorem obtener_inexistente_falla (db : BaseDeDatos) (id_cuenta : String)
    (h : buscarFila db id_cuenta = none) :
    obtener_por_id db id_cuenta = .error CuentaNoEncontrada := by
  simp [obtener_por_id, h]

/-- Witness for C8: fetching id `"99999"` from a store holding only
`"12345"` fails with the `AccountNotFound` message. -/
theorem obtener_inexistente_falla_witness :
    obtener_por_id [("12345", 100)] "99999" = .error CuentaNoEncontrada :=
  obtener_inexistente_falla [("12345", 100)] "99999" rfl

/-- Claim C9: round trip — for every account `a` and every prior database
state (a row for `a.id_cuenta` may or may not exist), `guardar a` followed
by `obtener_por_id a.id_cuenta` returns an account with the same id and the
same balance as `a`. -/
theorem guardar_obtener_round_trip (db : BaseDeDatos) (a : Cuenta) :
    obtener_por_id (guardar db a) a.id_cuenta = .ok ⟨a.id_cuenta, a.saldo⟩ := by
  simp [obtener_por_id, guardar, buscarFila]

/-- Claim C1 counterexample: the claim says every core operation, account
construction included, keeps the balance nonnegative; but the constructor
(`Cuenta.__init__`) performs no check, so constructing an account with
initial balance `-1` already violates `saldo ≥ 0`. -/
theorem construccion_viola_saldo_no_negativo :
    ¬ (0 ≤ (Cuenta.mk "99999" (-1)).saldo) := by
  show ¬ ((0 : ℚ) ≤ -1)
  norm_num

/-- Claim C1 (amended): the mutation operations check before committing —
`depositar` and `retirar` applied to an account with nonnegative balance can
only produce an account with nonnegative balance — and `guardar` /
`obtener_por_id` preserve nonnegativity of the stored balances; but account
construction performs no check, so the invariant holds only from
nonnegative starting states. -/
theorem operaciones_preservan_saldo_no_negativo (c : Cuenta)
    (hc : 0 ≤ c.saldo) (monto : ℚ) (db : BaseDeDatos)
    (hdb : saldosNoNegativos db) :
    (∀ c2, c.depositar monto = .ok c2 → 0 ≤ c2.saldo) ∧
    (∀ c2, c.retirar monto = .ok c2 → 0 ≤ c2.saldo) ∧
    saldosNoNegativos (guardar db c) ∧
    (∀ otra_id c2, obtener_por_id db otra_id = .ok c2 → 0 ≤ c2.saldo) := by
  refine ⟨?_, ?_, ?_, ?_⟩
  · intro c2 h2
    by_cases hm : monto ≤ 0
    · simp [Cuenta.depositar, hm] at h2
    · rw [Cuenta.depositar, if_neg hm] at h2
      cases h2
      show 0 ≤ c.saldo + monto
      have := not_le.mp hm
      linarith
  · intro c2 h2
    by_cases hm : c.saldo < monto
    · simp [Cuenta.retirar, hm] at h2
    · rw [Cuenta.retirar, if_neg hm] at h2
      cases h2
      show 0 ≤ c.saldo - monto
      have := not_lt.mp hm
      linarith
  · intro fila hmem
    rcases List.mem_cons.mp hmem with hcabeza | hcola
    · rw [hcabeza]
      exact hc
    · exact hdb fila (List.mem_of_mem_filter hcola)
  · intro otra_id c2 h2
    rw [obtener_por_id] at h2
    cases heq : buscarFila db otra_id with
    | none => rw [heq] at h2; cases h2
    | some fila =>
      rw [heq] at h2
      cases h2
      exact hdb fila (buscarFila_mem heq).1

/-- Witness for the amended C1: depositing `50` into the nonnegative
bootstrap account yields the account with balance `150`, which is
nonnegative. -/
theorem operaciones_preservan_saldo_no_negativo_witness :
    0 ≤ (Cuenta.mk "12345" 150).saldo :=
  (operaciones_preservan_saldo_no_negativo ⟨"12345", 100⟩ (by norm_num) 50 []
      (by intro fila hmem; simp at hmem)).1
    ⟨"12345", 150⟩ (by norm_num [Cuenta.depositar])

/-- Claim C10: the `Cuenta` constructor performs no validation — an account
with balance `-5` is constructed without error, and `guardar` persists that
negative balance, which a subsequent fetch returns; nonnegativity is checked
only inside `depositar` / `retirar`. -/
theorem constructor_sin_validacion :
    (Cuenta.mk "deuda" (-5)).saldo < 0 ∧
    obtener_por_id (guardar [("12345", 100)] (Cuenta.mk "deuda" (-5))) "deuda"
      = .ok (Cuenta.mk "deuda" (-5)) ∧
    Cuenta.depositar (Cuenta.mk "deuda" (-5)) (-5) = .error MontoInvalido := by
  refine ⟨?_, ?_, ?_⟩
  · show (-5 : ℚ) < 0
    norm_num
  · simp [obtener_por_id, guardar, buscarFila]
  · norm_num [Cuenta.depositar]
